import Mathlib

/-!
Verification development for the appstore-earnings-cli core: a shallow
embedding of the finance-report parser, the per-product aggregator, the
currency converter, the fiscal-calendar calculator, the payment estimator
and the taxonomy grouper, together with theorems about them.

Numbers that the TypeScript source holds as IEEE doubles are modelled as
rationals (`Rat`); all algebraic claims proved here are about the exact
arithmetic structure of the code, not about rounding.  JavaScript's `Map`
and plain objects are modelled as insertion-ordered association lists with
first-occurrence update (`setAssoc`), matching `Map.set` / object property
semantics under the unique-key discipline the code maintains.  `Date`
values are modelled as day numbers since 1970-01-01 (proleptic Gregorian,
via the standard civil-from-days algorithm); instants ("now") are modelled
as milliseconds since the epoch, and a constructed `Date` at local
midnight sits at day × 86400000, so ordering comparisons agree with the
source.  Network and clock effects are passed as explicit parameters.
-/

/-- Digit list to natural number, most significant first. -/
def digitsToNat (ds : List Char) : Nat :=
  ds.foldl (fun n c => n * 10 + (c.toNat - 48)) 0

/-- Model of JavaScript `parseInt(s, 10)`: skip leading whitespace, parse an
optional sign and then the longest prefix of decimal digits; `none` models
`NaN` (no digits). -/
def jsParseInt (s : String) : Option Int :=
  let cs := s.toList.dropWhile Char.isWhitespace
  let signAndRest : Int × List Char :=
    match cs with
    | '+' :: rest => (1, rest)
    | '-' :: rest => (-1, rest)
    | _ => (1, cs)
  let ds := signAndRest.2.takeWhile Char.isDigit
  if ds.isEmpty then none else some (signAndRest.1 * digitsToNat ds)

/-- Model of JavaScript `parseFloat(s)`: skip leading whitespace, parse an
optional sign, then the longest decimal-literal prefix (integer digits,
optional fraction, optional exponent); `none` models `NaN`.  The `Infinity`
literal has no rational value and is not modelled. -/
def jsParseFloat (s : String) : Option Rat :=
  let cs := s.toList.dropWhile Char.isWhitespace
  let signAndRest : Rat × List Char :=
    match cs with
    | '+' :: rest => (1, rest)
    | '-' :: rest => (-1, rest)
    | _ => (1, cs)
  let cs := signAndRest.2
  let intDigits := cs.takeWhile Char.isDigit
  let cs₁ := cs.dropWhile Char.isDigit
  let fracAndRest : List Char × List Char :=
    match cs₁ with
    | '.' :: rest => (rest.takeWhile Char.isDigit, rest.dropWhile Char.isDigit)
    | _ => ([], cs₁)
  let fracDigits := fracAndRest.1
  if intDigits.isEmpty ∧ fracDigits.isEmpty then none
  else
    let mantissa : Rat :=
      signAndRest.1 *
        ((digitsToNat intDigits : Rat) + (digitsToNat fracDigits : Rat) / (10 ^ fracDigits.length))
    let expVal : Int :=
      match fracAndRest.2 with
      | e :: rest =>
        if e = 'e' ∨ e = 'E' then
          let esignAndRest : Int × List Char :=
            match rest with
            | '+' :: r => (1, r)
            | '-' :: r => (-1, r)
            | _ => (1, rest)
          let eds := esignAndRest.2.takeWhile Char.isDigit
          if eds.isEmpty then 0 else esignAndRest.1 * digitsToNat eds
        else 0
      | [] => 0
    some (if 0 ≤ expVal then mantissa * 10 ^ expVal.toNat else mantissa / 10 ^ (-expVal).toNat)

/-- Model of JavaScript `String.prototype.padStart(n, c)`. -/
def jsPadStart (s : String) (n : Nat) (c : Char) : String :=
  if n ≤ s.length then s else String.mk (List.replicate (n - s.length) c) ++ s

/-- Split a character list at every occurrence of the separator; the
splitter of JavaScript `String.prototype.split` with a one-character
separator (an empty input yields one empty field, and separators at the
edges yield empty fields, as in JavaScript). -/
def splitCharList (sep : Char) : List Char → List (List Char)
  | [] => [[]]
  | c :: rest =>
    let r := splitCharList sep rest
    if c = sep then [] :: r
    else
      match r with
      | [] => [[c]]
      | h :: t => (c :: h) :: t

/-- Model of JavaScript `s.split(sep)` for a one-character separator. -/
def jsSplit (s : String) (sep : Char) : List String :=
  (splitCharList sep s.toList).map String.mk

/-- Model of JavaScript `String.prototype.trim`: strip leading and
trailing whitespace. -/
def jsTrim (s : String) : String :=
  String.mk (((s.toList.dropWhile Char.isWhitespace).reverse.dropWhile
    Char.isWhitespace).reverse)

/-- Model of JavaScript `String.prototype.startsWith`. -/
def jsStartsWith (s pre : String) : Bool :=
  pre.toList.isPrefixOf s.toList

/-- Lookup in an insertion-ordered association list; models `Map.get` /
object property read. -/
def getAssoc {α : Type} : List (String × α) → String → Option α
  | [], _ => none
  | (k', v) :: rest, k => if k' = k then some v else getAssoc rest k

/-- Update-or-append in an insertion-ordered association list; models
`Map.set` / object property write (the code never creates duplicate keys,
so replacing the first occurrence is exact). -/
def setAssoc {α : Type} : List (String × α) → String → α → List (String × α)
  | [], k, v => [(k, v)]
  | (k', v') :: rest, k, v =>
    if k' = k then (k, v) :: rest else (k', v') :: setAssoc rest k v

/-- A civil (proleptic Gregorian) calendar date. -/
structure CivilDate where
  year : Int
  month : Int
  day : Int
deriving DecidableEq, Repr

/-- Days since 1970-01-01 of the civil date y-m-d (m in 1..12); the
standard era/year-of-era algorithm used to model ECMAScript `MakeDay`. -/
def daysFromCivil (y m d : Int) : Int :=
  let y' := y - (if m ≤ 2 then 1 else 0)
  let era := Int.fdiv y' 400
  let yoe := y' - era * 400
  let mp := Int.emod (m + 9) 12
  let doy := Int.fdiv (153 * mp + 2) 5 + d - 1
  let doe := yoe * 365 + Int.fdiv yoe 4 - Int.fdiv yoe 100 + doy
  era * 146097 + doe - 719468

/-- Civil date of a day number since 1970-01-01 (inverse of
`daysFromCivil`); models the date-component getters of a `Date`. -/
def civilFromDays (z : Int) : CivilDate :=
  let z' := z + 719468
  let era := Int.fdiv z' 146097
  let doe := z' - era * 146097
  let yoe := Int.fdiv (doe - Int.fdiv doe 1460 + Int.fdiv doe 36524 - Int.fdiv doe 146096) 365
  let y := yoe + era * 400
  let doy := doe - (365 * yoe + Int.fdiv yoe 4 - Int.fdiv yoe 100)
  let mp := Int.fdiv (5 * doy + 2) 153
  let d := doy - Int.fdiv (153 * mp + 2) 5 + 1
  let m := mp + (if mp < 10 then 3 else -9)
  ⟨y + (if m ≤ 2 then 1 else 0), m, d⟩

/-- Day number of `new Date(y, m0, d)` (month 0-based, both month and day
normalized by carrying, years 0..99 mapped to 1900+y as in ECMAScript). -/
def jsDateFromYMD (y m0 d : Int) : Int :=
  let yr := if 0 ≤ y ∧ y ≤ 99 then 1900 + y else y
  let ym := yr + Int.fdiv m0 12
  let mn := Int.emod m0 12
  daysFromCivil ym (mn + 1) 1 + d - 1

/-- Milliseconds at local midnight of a day number. -/
def dayToMs (d : Int) : Int := d * 86400000

/-- One parsed line of the Financial Report TSV (`FinancialReportRow` in
`types.ts`). -/
structure FinancialReportRow where
  startDate : String
  endDate : String
  upc : String
  isrcIsbn : String
  vendorIdentifier : String
  quantity : Int
  partnerShare : Rat
  extendedPartnerShare : Rat
  partnerShareCurrency : String
  saleOrReturn : String
  appleIdentifier : String
  artistShowDeveloper : String
  title : String
  labelStudioNetwork : String
  grid : String
  productTypeIdentifier : String
  isanOtherIdentifier : String
  countryOfSale : String
  preOrderFlag : String
  promoCode : String
  customerPrice : Rat
  customerCurrency : String
deriving DecidableEq, Repr

/-- Aggregated earnings per product (`ProductEarnings` in `types.ts`);
`proceedsByCurrency` is the insertion-ordered currency→amount object. -/
structure ProductEarnings where
  appleIdentifier : String
  title : String
  sku : String
  productType : String
  isIAP : Bool
  proceedsByCurrency : List (String × Rat)
  totalProceeds : Rat
deriving DecidableEq, Repr

/-- An app with its grouped IAPs (`AppWithIAPs` in `types.ts`). -/
structure AppWithIAPs where
  appleIdentifier : String
  title : String
  sku : String
  totalProceeds : Rat
  appProceeds : Rat
  iaps : List ProductEarnings
deriving DecidableEq, Repr

/-- One product-mapping entry (`ProductInfo` in `api/appStore.ts`). -/
structure ProductInfo where
  productId : String
  productName : String
  parentAppId : String
  parentAppName : String
  isIAP : Bool
deriving DecidableEq, Repr

/-- A selectable reporting period (`CalendarMonth` in `types.ts`). -/
structure CalendarMonth where
  year : Nat
  month : Nat
  displayName : String
  reportDate : String
deriving DecidableEq, Repr

/-- Best-effort payment estimate (`PaymentInfo` in `types.ts`). -/
structure PaymentInfo where
  paymentDate : Option String
  paymentAmount : Option Rat
  paymentCurrency : String
  exchangeRate : Option Rat
  isPending : Bool
  estimatedPaymentDate : Option String
  fiscalPeriodStart : String
  fiscalPeriodEnd : String
  totalOwed : Option Rat
deriving DecidableEq, Repr

/-- Model of `parseRow` from `parseFinanceReport.ts`: a line's tab-split columns
become a row when at least 12 columns are present; missing trailing
columns default to the empty string and unparsable numeric fields default
to zero (`parseInt(...) || 0`, `parseFloat(...) || 0`). -/
def parseRow (columns : List String) : Option FinancialReportRow :=
  if columns.length < 12 then none
  else some {
    startDate := columns.getD 0 ""
    endDate := columns.getD 1 ""
    upc := columns.getD 2 ""
    isrcIsbn := columns.getD 3 ""
    vendorIdentifier := columns.getD 4 ""
    quantity := (jsParseInt (columns.getD 5 "")).getD 0
    partnerShare := (jsParseFloat (columns.getD 6 "")).getD 0
    extendedPartnerShare := (jsParseFloat (columns.getD 7 "")).getD 0
    partnerShareCurrency := columns.getD 8 ""
    saleOrReturn := columns.getD 9 ""
    appleIdentifier := columns.getD 10 ""
    artistShowDeveloper := columns.getD 11 ""
    title := columns.getD 12 ""
    labelStudioNetwork := columns.getD 13 ""
    grid := columns.getD 14 ""
    productTypeIdentifier := columns.getD 15 ""
    isanOtherIdentifier := columns.getD 16 ""
    countryOfSale := columns.getD 17 ""
    preOrderFlag := columns.getD 18 ""
    promoCode := columns.getD 19 ""
    customerPrice := (jsParseFloat (columns.getD 20 "")).getD 0
    customerCurrency := columns.getD 21 "" }

/-- The body loop of `parseFinanceReport`: skip blank lines, tab-split the
rest, keep the rows `parseRow` accepts, in input order. -/
def parseLines : List String → List FinancialReportRow
  | [] => []
  | l :: rest =>
    if jsTrim l = "" then parseLines rest
    else
      match parseRow (jsSplit l '\t') with
      | some r => r :: parseLines rest
      | none => parseLines rest

/-- Model of `parseFinanceReport` from `parseFinanceReport.ts`: trim the content,
split on newlines, return `[]` when at most one line, otherwise run the
body loop from the second line on. -/
def parseFinanceReport (tsvContent : String) : List FinancialReportRow :=
  let lines := jsSplit (jsTrim tsvContent) '\n'
  if lines.length ≤ 1 then []
  else parseLines (lines.drop 1)

/-- The stable product key used by the aggregator:
`row.vendorIdentifier || row.appleIdentifier`. -/
def productKey (r : FinancialReportRow) : String :=
  if r.vendorIdentifier = "" then r.appleIdentifier else r.vendorIdentifier

/-- The currency a row's proceeds are filed under:
`row.partnerShareCurrency || "USD"`. -/
def effCurrency (r : FinancialReportRow) : String :=
  if r.partnerShareCurrency = "" then "USD" else r.partnerShareCurrency

/-- The `ProductEarnings` created at the first sighting of a key in
`aggregateByProduct` (before any proceeds are added). -/
def freshProduct (r : FinancialReportRow) : ProductEarnings :=
  { appleIdentifier := r.appleIdentifier
    title := if r.title = "" then r.vendorIdentifier else r.title
    sku := r.vendorIdentifier
    productType := r.productTypeIdentifier
    isIAP := jsStartsWith r.productTypeIdentifier "IA"
    proceedsByCurrency := []
    totalProceeds := 0 }

/-- One iteration of the `aggregateByProduct` loop: skip zero-proceeds
rows and empty keys, otherwise get-or-create the product for the row's
key and add the row's extended proceeds to its currency entry. -/
def aggregateStep (state : List (String × ProductEarnings)) (r : FinancialReportRow) :
    List (String × ProductEarnings) :=
  if r.extendedPartnerShare = 0 then state
  else
    let key := productKey r
    if key = "" then state
    else
      let product := (getAssoc state key).getD (freshProduct r)
      let currency := effCurrency r
      let current := (getAssoc product.proceedsByCurrency currency).getD 0
      let product' :=
        { product with
          proceedsByCurrency :=
            setAssoc product.proceedsByCurrency currency (current + r.extendedPartnerShare) }
      setAssoc state key product'

/-- The product map built by `aggregateByProduct`'s loop (the `Map` named
`productMap` in the source), in insertion order. -/
def aggregateState (rows : List FinancialReportRow) : List (String × ProductEarnings) :=
  rows.foldl aggregateStep []

/-- Model of `aggregateByProduct` from `parseFinanceReport.ts`:
`Array.from(productMap.values())`. -/
def aggregateByProduct (rows : List FinancialReportRow) : List ProductEarnings :=
  (aggregateState rows).map (·.2)

/-- The rate applied by the converters: `exchangeRates.get(currency) || 1`
(a missing entry — and JavaScript's falsy rate `0` — fall back to 1). -/
def rateOr1 (exchangeRates : List (String × Rat)) (c : String) : Rat :=
  match getAssoc exchangeRates c with
  | some r => if r = 0 then 1 else r
  | none => 1

/-- The converted total of one product in `convertProducts`: the loop
`total += amount * rate` over `Object.entries(product.proceedsByCurrency)`. -/
def convertedTotal (exchangeRates : List (String × Rat)) (p : ProductEarnings) : Rat :=
  p.proceedsByCurrency.foldl (fun total e => total + e.2 * rateOr1 exchangeRates e.1) 0

/-- Model of `convertProducts` from `parseFinanceReport.ts`: recompute every
product's `totalProceeds` from its currency map and the rate table. -/
def convertProducts (products : List ProductEarnings) (exchangeRates : List (String × Rat)) :
    List ProductEarnings :=
  products.map (fun p => { p with totalProceeds := convertedTotal exchangeRates p })

/-- Model of `fetchRate` from `api/exchangeRates.ts`, with the network collaborator
abstracted as `lookup` (the Frankfurter response's rate for the target
currency when the request succeeds, `none` on a failed request or a
missing rate).  The target currency is always 1 without a request; a
returned falsy rate (`0`) raises "No exchange rate found", i.e. `none`. -/
def fetchRate (lookup : String → Option Rat) (targetCurrency : String) (baseCurrency : String) :
    Option Rat :=
  if baseCurrency = targetCurrency then some 1
  else
    match lookup baseCurrency with
    | none => none
    | some r => if r = 0 then none else some r

/-- Model of `fetchExchangeRates` from `api/exchangeRates.ts`: seed the table with
the target currency at 1, then for every other requested currency store
`fetchRate`'s result, substituting 1 when it fails (the `try`/`catch`
around each per-currency request). -/
def fetchExchangeRates (lookup : String → Option Rat) (targetCurrency : String)
    (currencies : List String) : List (String × Rat) :=
  let currenciesToFetch := currencies.filter (fun c => !(c == targetCurrency))
  let rates := setAssoc ([] : List (String × Rat)) targetCurrency 1
  currenciesToFetch.foldl
    (fun m c => setAssoc m c ((fetchRate lookup targetCurrency c).getD 1)) rates

/-- Model of `MONTH_NAMES` from `calendarMonths.ts`. -/
def MONTH_NAMES : List String :=
  ["January", "February", "March", "April", "May", "June",
   "July", "August", "September", "October", "November", "December"]

/-- Model of `calendarToFiscalMonth` from `calendarMonths.ts`: October→1 …
September→12. -/
def calendarToFiscalMonth (calendarMonth : Nat) : Nat :=
  if calendarMonth ≥ 10 then calendarMonth - 9 else calendarMonth + 3

/-- Model of `getFiscalYear` from `calendarMonths.ts`: Oct–Dec roll into the next
fiscal year. -/
def getFiscalYear (calendarYear calendarMonth : Nat) : Nat :=
  if calendarMonth ≥ 10 then calendarYear + 1 else calendarYear

/-- Model of `createCalendarMonth` from `calendarMonths.ts`. -/
def createCalendarMonth (year month : Nat) : CalendarMonth :=
  { year := year
    month := month
    displayName := (MONTH_NAMES.getD (month - 1) "undefined") ++ " " ++ toString year
    reportDate :=
      toString (getFiscalYear year month) ++ "-" ++
        jsPadStart (toString (calendarToFiscalMonth month)) 2 '0' }

/-- The spec-side inverse of the calendar→fiscal map, used to state that
the original calendar month is recoverable (fiscal 1..3 → Oct..Dec,
fiscal 4..12 → Jan..Sep). -/
def fiscalToCalendarMonth (fiscalMonth : Nat) : Nat :=
  if fiscalMonth ≤ 3 then fiscalMonth + 9 else fiscalMonth - 3

/-- The short month names used by `formatDateForDisplay`. -/
def MONTHS_SHORT : List String :=
  ["Jan", "Feb", "Mar", "Apr", "May", "Jun", "Jul", "Aug", "Sep", "Oct", "Nov", "Dec"]

/-- Model of `formatDateForDisplay` from `parseFinanceReport.ts`, on a day number:
`"{months[getMonth()]} {getDate()}, {getFullYear()}"`. -/
def formatDateForDisplay (day : Int) : String :=
  let c := civilFromDays day
  (MONTHS_SHORT.getD (c.month - 1).toNat "undefined") ++ " " ++ toString c.day ++ ", " ++
    toString c.year

/-- The mutable scan state of `parsePaymentInfo`'s line loop. -/
structure PaymentScan where
  totalOwed : Option Rat
  fiscalPeriodStart : String
  fiscalPeriodEnd : String
deriving DecidableEq, Repr

/-- The regular expression `^(\d{2})\/(\d{2})\/(\d{4})$`. -/
def matchesDatePattern (s : String) : Bool :=
  match s.toList with
  | [a, b, s₁, c, d, s₂, e, f, g, h] =>
    a.isDigit && b.isDigit && s₁ = '/' && c.isDigit && d.isDigit && s₂ = '/' &&
      e.isDigit && f.isDigit && g.isDigit && h.isDigit
  | _ => false

/-- One iteration of `parsePaymentInfo`'s scanning loop: blank lines are
skipped; a `Total_Amount` line with at least two columns (re)captures the
total-owed figure when its second column parses; otherwise the first line
whose first two columns both match the date pattern fixes the fiscal
period. -/
def scanLine (st : PaymentScan) (line : String) : PaymentScan :=
  let trimmedLine := jsTrim line
  if trimmedLine = "" then st
  else
    let columns := jsSplit trimmedLine '\t'
    if columns.getD 0 "" = "Total_Amount" ∧ 2 ≤ columns.length then
      match jsParseFloat (columns.getD 1 "") with
      | some v => { st with totalOwed := some v }
      | none => st
    else
      if st.fiscalPeriodStart = "" ∧ 2 ≤ columns.length ∧
          matchesDatePattern (columns.getD 0 "") = true ∧
          matchesDatePattern (columns.getD 1 "") = true then
        { st with fiscalPeriodStart := columns.getD 0 "", fiscalPeriodEnd := columns.getD 1 "" }
      else st

/-- The whole scanning loop of `parsePaymentInfo` over the trimmed
content's lines. -/
def scanPayment (tsvContent : String) : PaymentScan :=
  (jsSplit (jsTrim tsvContent) '\n').foldl scanLine ⟨none, "", ""⟩

/-- The fiscal-period-end `Date` (as a day number) that `parsePaymentInfo`
settles on: the explicit argument when given, else the scanned
`fiscalPeriodEnd` string parsed as `new Date(year, month-1, day)`. -/
def paymentPeriodEndDay (tsvContent : String) (fiscalPeriodEndDate : Option Int) : Option Int :=
  match fiscalPeriodEndDate with
  | some d => some d
  | none =>
    let st := scanPayment tsvContent
    if st.fiscalPeriodEnd ≠ "" then
      let parts := jsSplit st.fiscalPeriodEnd '/'
      if parts.length = 3 then
        some (jsDateFromYMD ((jsParseInt (parts.getD 2 "")).getD 0)
          ((jsParseInt (parts.getD 0 "")).getD 0 - 1)
          ((jsParseInt (parts.getD 1 "")).getD 0))
      else none
    else none

/-- Model of `parsePaymentInfo` from `parseFinanceReport.ts`, with the clock
injected: `now` is the current instant in milliseconds.  Returns `none`
for blank content and when neither a total-owed figure nor a fiscal
period end was found; otherwise estimates the payment date as period end
+ 33 days and marks the payment made when `now` is strictly past that
date's midnight. -/
def parsePaymentInfo (tsvContent : String) (fiscalPeriodEndDate : Option Int) (now : Int) :
    Option PaymentInfo :=
  if jsTrim tsvContent = "" then none
  else
    let lines := jsSplit (jsTrim tsvContent) '\n'
    if lines.length = 0 then none
    else
      let st := scanPayment tsvContent
      let base : PaymentInfo :=
        { paymentDate := none
          paymentAmount := none
          paymentCurrency := "USD"
          exchangeRate := none
          isPending := true
          estimatedPaymentDate := none
          fiscalPeriodStart := st.fiscalPeriodStart
          fiscalPeriodEnd := st.fiscalPeriodEnd
          totalOwed := st.totalOwed }
      let info :=
        match paymentPeriodEndDay tsvContent fiscalPeriodEndDate with
        | none => base
        | some endDay =>
          let estimatedDay := endDay + 33
          let est := formatDateForDisplay estimatedDay
          if now > dayToMs estimatedDay then
            { base with
              estimatedPaymentDate := some est
              isPending := false
              paymentDate := some est
              paymentAmount := st.totalOwed }
          else { base with estimatedPaymentDate := some est }
      if info.totalOwed ≠ none ∨ info.fiscalPeriodEnd ≠ "" then some info else none

/-- The mapping lookup chain of `groupByParentApp`:
`mapping.get(product.sku) || mapping.get(product.appleIdentifier)`. -/
def lookupInfo (mapping : List (String × ProductInfo)) (p : ProductEarnings) :
    Option ProductInfo :=
  match getAssoc mapping p.sku with
  | some info => some info
  | none => getAssoc mapping p.appleIdentifier

/-- The (parent name, parent id, is-IAP) triple `groupByParentApp`
resolves for a product: from the mapping entry when matched, else from
the product itself (`product.appleIdentifier || product.sku`). -/
def resolvedParent (mapping : List (String × ProductInfo)) (p : ProductEarnings) :
    String × String × Bool :=
  match lookupInfo mapping p with
  | some info => (info.parentAppName, info.parentAppId, info.isIAP)
  | none => (p.title, if p.appleIdentifier = "" then p.sku else p.appleIdentifier, p.isIAP)

/-- The parent-app key a product lands under. -/
def resolvedParentId (mapping : List (String × ProductInfo)) (p : ProductEarnings) : String :=
  (resolvedParent mapping p).2.1

/-- One iteration of `groupByParentApp`'s loop: get-or-create the parent
entry, append an IAP to `iaps` or add direct sales to `appProceeds`, and
always add the product's converted total to the parent's running total. -/
def groupStep (mapping : List (String × ProductInfo)) (state : List (String × AppWithIAPs))
    (p : ProductEarnings) : List (String × AppWithIAPs) :=
  let pr := resolvedParent mapping p
  let app := (getAssoc state pr.2.1).getD
    { appleIdentifier := pr.2.1, title := pr.1, sku := "",
      totalProceeds := 0, appProceeds := 0, iaps := [] }
  let app' :=
    if pr.2.2 then
      { app with iaps := app.iaps ++ [p], totalProceeds := app.totalProceeds + p.totalProceeds }
    else
      { app with appProceeds := app.appProceeds + p.totalProceeds,
                 totalProceeds := app.totalProceeds + p.totalProceeds }
  setAssoc state pr.2.1 app'

/-- Stable insertion of one product into a list already sorted descending
by converted total; models the comparator `(a, b) => b.totalProceeds -
a.totalProceeds` of the stable `Array.prototype.sort`. -/
def insertIAPDesc (x : ProductEarnings) : List ProductEarnings → List ProductEarnings
  | [] => [x]
  | y :: ys =>
    if y.totalProceeds < x.totalProceeds then x :: y :: ys else y :: insertIAPDesc x ys

/-- Stable descending sort by converted total (`app.iaps.sort(...)`). -/
def sortIAPsDesc (l : List ProductEarnings) : List ProductEarnings :=
  l.foldr insertIAPDesc []

/-- Model of `groupByParentApp` from `index.ts`: fold all products into the parent
map, then return the parent entries in insertion order with each parent's
IAP list sorted descending by converted total. -/
def groupByParentApp (products : List ProductEarnings)
    (mapping : List (String × ProductInfo)) : List AppWithIAPs :=
  ((products.foldl (groupStep mapping) []).map (·.2)).map
    (fun a => { a with iaps := sortIAPsDesc a.iaps })

/-- A concrete product used by the C9 witness. -/
def witnessProductUSDEUR : ProductEarnings :=
  { appleIdentifier := "100", title := "App", sku := "A1", productType := "1",
    isIAP := false, proceedsByCurrency := [("USD", 3), ("EUR", 2)], totalProceeds := 0 }

/-- The rate source used by the C7 witness: GBP resolves to 3/2, every
other request fails. -/
def witnessLookupGBP (c : String) : Option Rat :=
  if c = "GBP" then some (3 / 2) else none

/-- A keyless row with nonzero proceeds, used by the C10 witness. -/
def witnessKeylessRow : FinancialReportRow :=
  { startDate := "01/01/2025", endDate := "01/31/2025", upc := "", isrcIsbn := "",
    vendorIdentifier := "", quantity := 1, partnerShare := 5, extendedPartnerShare := 5,
    partnerShareCurrency := "USD", saleOrReturn := "S", appleIdentifier := "",
    artistShowDeveloper := "dev", title := "Ghost", labelStudioNetwork := "", grid := "",
    productTypeIdentifier := "1", isanOtherIdentifier := "", countryOfSale := "US",
    preOrderFlag := "", promoCode := "", customerPrice := 7, customerCurrency := "USD" }

/-- A normal keyed row used by the C10 witness. -/
def witnessKeyedRow : FinancialReportRow :=
  { startDate := "01/01/2025", endDate := "01/31/2025", upc := "", isrcIsbn := "",
    vendorIdentifier := "A1", quantity := 2, partnerShare := 3, extendedPartnerShare := 6,
    partnerShareCurrency := "EUR", saleOrReturn := "S", appleIdentifier := "100",
    artistShowDeveloper := "dev", title := "App", labelStudioNetwork := "", grid := "",
    productTypeIdentifier := "1", isanOtherIdentifier := "", countryOfSale := "DE",
    preOrderFlag := "", promoCode := "", customerPrice := 9, customerCurrency := "EUR" }

/-- The amount a product's currency map holds for currency `c` (0 when
absent), used to state conservation of money. -/
def pcAt (p : ProductEarnings) (c : String) : Rat :=
  (getAssoc p.proceedsByCurrency c).getD 0

/-- Total held for currency `c` across all products of an aggregation
state. -/
def stateCurrencySum (state : List (String × ProductEarnings)) (c : String) : Rat :=
  (state.map (fun e => pcAt e.2 c)).sum

/-- A row with zero extended proceeds, used by the C5 witness. -/
def witnessZeroRow : FinancialReportRow :=
  { startDate := "01/01/2025", endDate := "01/31/2025", upc := "", isrcIsbn := "",
    vendorIdentifier := "Z1", quantity := 1, partnerShare := 0, extendedPartnerShare := 0,
    partnerShareCurrency := "USD", saleOrReturn := "S", appleIdentifier := "200",
    artistShowDeveloper := "dev", title := "ZeroApp", labelStudioNetwork := "", grid := "",
    productTypeIdentifier := "1", isanOtherIdentifier := "", countryOfSale := "US",
    preOrderFlag := "", promoCode := "", customerPrice := 1, customerCurrency := "USD" }

/-- A report whose single body row has nonzero proceeds but an empty
vendor SKU (column 4) and an empty Apple identifier (column 10); the C2
counterexample input. -/
def reportKeylessContent : String :=
  "header\na\tb\tc\td\t\t1\t1\t5\tUSD\tS\t\tdev"

/-- A report with three keyed body rows: A1 in USD (5), B2 with a blank
currency code (3, filed under USD), and C3 in EUR (2); the C2 witness
input. -/
def reportKeyedContent : String :=
  "header\n" ++
  "a\tb\tc\td\tA1\t1\t5\t5\tUSD\tS\t100\tdev\tAppA\t\t\t1\t\tUS\t\t\t5\tUSD\n" ++
  "a\tb\tc\td\tB2\t1\t3\t3\t\tS\t101\tdev\tAppB\t\t\t1\t\tUS\t\t\t3\tUSD\n" ++
  "a\tb\tc\td\tC3\t1\t2\t2\tEUR\tS\t102\tdev\tAppC\t\t\t1\t\tDE\t\t\t2\tEUR"

/-- An add-on (IAP) product unmatched by any mapping; C3 counterexample
and witness input. -/
def witnessIAPProduct : ProductEarnings :=
  { appleIdentifier := "300", title := "Coins Pack", sku := "IAP1", productType := "IA1",
    isIAP := true, proceedsByCurrency := [("USD", 7)], totalProceeds := 7 }

/-- A base (non-add-on) product unmatched by any mapping; C3 amended
witness input. -/
def witnessBaseProduct : ProductEarnings :=
  { appleIdentifier := "400", title := "Solo App", sku := "B1", productType := "1",
    isIAP := false, proceedsByCurrency := [("USD", 9)], totalProceeds := 9 }

/-- The September 2025 report of the C1/C6 scenarios: one data row with
fiscal period 09/01/2025–09/30/2025 and a `Total_Amount` footer of
208.66. -/
def reportSeptContent : String :=
  "09/01/2025\t09/30/2025\nTotal_Amount\t208.66"

theorem getAssoc_setAssoc {α : Type} (m : List (String × α)) (k k' : String) (v : α) :
    getAssoc (setAssoc m k v) k' = if k = k' then some v else getAssoc m k' := by
  induction m with
  | nil => by_cases h : k = k' <;> simp [setAssoc, getAssoc, h]
  | cons hd tl ih =>
    obtain ⟨k₀, v₀⟩ := hd
    by_cases h₀ : k₀ = k
    · subst h₀
      by_cases h : k₀ = k' <;> simp [setAssoc, getAssoc, h]
    · by_cases h : k₀ = k'
      · subst h
        have hk : ¬(k = k₀) := fun he => h₀ he.symm
        simp [setAssoc, getAssoc, h₀, hk]
      · simp [setAssoc, getAssoc, h₀, h, ih]

theorem setAssoc_of_getAssoc_none {α : Type} (m : List (String × α)) (k : String) (v : α)
    (h : getAssoc m k = none) : setAssoc m k v = m ++ [(k, v)] := by
  induction m with
  | nil => simp [setAssoc]
  | cons hd tl ih =>
    obtain ⟨k₀, v₀⟩ := hd
    by_cases h₀ : k₀ = k
    · simp [getAssoc, h₀] at h
    · simp [getAssoc, h₀] at h
      simp [setAssoc, h₀, ih h]

theorem mem_of_getAssoc {α : Type} (m : List (String × α)) (k : String) (v : α)
    (h : getAssoc m k = some v) : (k, v) ∈ m := by
  induction m with
  | nil => simp [getAssoc] at h
  | cons hd tl ih =>
    obtain ⟨k₀, v₀⟩ := hd
    by_cases h₀ : k₀ = k
    · subst h₀
      simp [getAssoc] at h
      simp [h]
    · simp [getAssoc, h₀] at h
      exact List.mem_cons_of_mem _ (ih h)

theorem getAssoc_eq_none_iff {α : Type} (m : List (String × α)) (k : String) :
    getAssoc m k = none ↔ ¬ k ∈ m.map (·.1) := by
  induction m with
  | nil => simp [getAssoc]
  | cons hd tl ih =>
    obtain ⟨k₀, v₀⟩ := hd
    by_cases h₀ : k₀ = k
    · subst h₀
      simp [getAssoc]
    · simp only [getAssoc, if_neg h₀, List.map_cons, List.mem_cons, ih]
      constructor
      · intro h hc
        rcases hc with hc | hc
        · exact h₀ hc.symm
        · exact h hc
      · intro h hc
        exact h (Or.inr hc)

/-- C4: for every calendar year and calendar month in 1..12,
`createCalendarMonth` computes fiscal month = month − 9 when month ≥ 10
and month + 3 otherwise, fiscal year = year + 1 when month ≥ 10 and year
otherwise, and writes the period identifier as the fiscal year, a dash,
and the two-digit-padded fiscal month; the calendar→fiscal map is
injective on 1..12 and the calendar month is recoverable from the fiscal
month. -/
theorem createCalendarMonth_fiscal_bijection (y m : Nat) (h1 : 1 ≤ m) (h2 : m ≤ 12) :
    (createCalendarMonth y m).reportDate =
      toString (if 10 ≤ m then y + 1 else y) ++ "-" ++
        jsPadStart (toString (if 10 ≤ m then m - 9 else m + 3)) 2 '0' ∧
    (∀ m', 1 ≤ m' → m' ≤ 12 → calendarToFiscalMonth m' = calendarToFiscalMonth m → m' = m) ∧
    fiscalToCalendarMonth (calendarToFiscalMonth m) = m := by
  refine ⟨rfl, ?_, ?_⟩
  · intro m' h1' h2' he
    simp only [calendarToFiscalMonth, ge_iff_le] at he
    split at he <;> split at he <;> omega
  · simp only [calendarToFiscalMonth, fiscalToCalendarMonth, ge_iff_le]
    split
    · split <;> omega
    · split <;> omega

/-- Witness for C4 at calendar November 2024 (fiscal month 2, fiscal year
2025, identifier "2025-02"). -/
theorem createCalendarMonth_fiscal_bijection_witness :
    (1 ≤ 11 ∧ (11 : Nat) ≤ 12) ∧
    ((createCalendarMonth 2024 11).reportDate =
      toString (if 10 ≤ 11 then 2024 + 1 else 2024) ++ "-" ++
        jsPadStart (toString (if 10 ≤ (11 : Nat) then 11 - 9 else 11 + 3)) 2 '0' ∧
    (∀ m', 1 ≤ m' → m' ≤ 12 →
      calendarToFiscalMonth m' = calendarToFiscalMonth 11 → m' = 11) ∧
    fiscalToCalendarMonth (calendarToFiscalMonth 11) = 11) ∧
    (createCalendarMonth 2024 11).reportDate = "2025-02" :=
  ⟨⟨by decide, by decide⟩,
    createCalendarMonth_fiscal_bijection 2024 11 (by decide) (by decide), by decide⟩

theorem parseLines_eq (l : List String) :
    parseLines l =
      (l.filter (fun s => !(jsTrim s == ""))).filterMap (fun s => parseRow (jsSplit s '\t')) := by
  induction l with
  | nil => simp [parseLines]
  | cons hd tl ih =>
    by_cases h : jsTrim hd = ""
    · simp [parseLines, h, ih]
    · cases hr : parseRow (jsSplit hd '\t') with
      | none => simp [parseLines, h, hr, ih]
      | some r => simp [parseLines, h, hr, ih]

theorem parseRow_of_length (columns : List String) (h : 12 ≤ columns.length) :
    parseRow columns = some {
      startDate := columns.getD 0 ""
      endDate := columns.getD 1 ""
      upc := columns.getD 2 ""
      isrcIsbn := columns.getD 3 ""
      vendorIdentifier := columns.getD 4 ""
      quantity := (jsParseInt (columns.getD 5 "")).getD 0
      partnerShare := (jsParseFloat (columns.getD 6 "")).getD 0
      extendedPartnerShare := (jsParseFloat (columns.getD 7 "")).getD 0
      partnerShareCurrency := columns.getD 8 ""
      saleOrReturn := columns.getD 9 ""
      appleIdentifier := columns.getD 10 ""
      artistShowDeveloper := columns.getD 11 ""
      title := columns.getD 12 ""
      labelStudioNetwork := columns.getD 13 ""
      grid := columns.getD 14 ""
      productTypeIdentifier := columns.getD 15 ""
      isanOtherIdentifier := columns.getD 16 ""
      countryOfSale := columns.getD 17 ""
      preOrderFlag := columns.getD 18 ""
      promoCode := columns.getD 19 ""
      customerPrice := (jsParseFloat (columns.getD 20 "")).getD 0
      customerCurrency := columns.getD 21 "" } := by
  unfold parseRow
  rw [if_neg (Nat.not_lt.mpr h)]

/-- C8: `parseFinanceReport` skips the first line unconditionally, splits
each remaining non-blank line on tab, silently drops lines with fewer
than 12 columns, keeps rows whose numeric fields fail to parse with those
fields defaulted to zero, and preserves input line order (it equals the
order-preserving filter/filterMap pipeline over the lines after the
first). -/
theorem parseFinanceReport_spec (tsvContent : String) :
    parseFinanceReport tsvContent =
      (((jsSplit (jsTrim tsvContent) '\n').drop 1).filter (fun l => !(jsTrim l == ""))).filterMap
        (fun l => parseRow (jsSplit l '\t')) ∧
    (∀ columns : List String, parseRow columns = none ↔ columns.length < 12) ∧
    (∀ columns : List String, 12 ≤ columns.length →
      ∃ r, parseRow columns = some r ∧
        (jsParseInt (columns.getD 5 "") = none → r.quantity = 0) ∧
        (jsParseFloat (columns.getD 6 "") = none → r.partnerShare = 0) ∧
        (jsParseFloat (columns.getD 7 "") = none → r.extendedPartnerShare = 0) ∧
        (jsParseFloat (columns.getD 20 "") = none → r.customerPrice = 0)) := by
  refine ⟨?_, ?_, ?_⟩
  · unfold parseFinanceReport
    by_cases h : (jsSplit (jsTrim tsvContent) '\n').length ≤ 1
    · have hd : (jsSplit (jsTrim tsvContent) '\n').drop 1 = [] :=
        List.drop_eq_nil_of_le h
      simp [h, hd]
    · simp [h, parseLines_eq]
  · intro columns
    by_cases h : columns.length < 12
    · simp [parseRow, h]
    · simp [parseRow_of_length columns (Nat.not_lt.mp h), h]
  · intro columns h
    refine ⟨_, parseRow_of_length columns h, ?_, ?_, ?_, ?_⟩ <;> intro hn <;>
      simp only [List.getD, List.get?_eq_getElem?] at hn ⊢ <;> simp [hn]

/-- Witness for C8: a 12-column line whose numeric columns are garbage is
kept with zero quantity and amounts. -/
theorem parseFinanceReport_spec_witness :
    12 ≤ (["01/01/2025", "01/31/2025", "", "", "SKU", "xx", "yy", "zz", "USD", "S",
      "123", "dev"] : List String).length ∧
    (∃ r, parseRow ["01/01/2025", "01/31/2025", "", "", "SKU", "xx", "yy", "zz", "USD", "S",
        "123", "dev"] = some r ∧
      (jsParseInt "xx" = none → r.quantity = 0) ∧
      (jsParseFloat "yy" = none → r.partnerShare = 0) ∧
      (jsParseFloat "zz" = none → r.extendedPartnerShare = 0) ∧
      (jsParseFloat "" = none → r.customerPrice = 0)) :=
  ⟨by decide,
    (parseFinanceReport_spec "").2.2
      ["01/01/2025", "01/31/2025", "", "", "SKU", "xx", "yy", "zz", "USD", "S", "123", "dev"]
      (by decide)⟩

theorem convertedTotal_foldl (exchangeRates : List (String × Rat)) (l : List (String × Rat))
    (a : Rat) (h : ∀ e ∈ l, rateOr1 exchangeRates e.1 = 1) :
    l.foldl (fun total e => total + e.2 * rateOr1 exchangeRates e.1) a =
      a + (l.map (·.2)).sum := by
  induction l generalizing a with
  | nil => simp
  | cons hd tl ih =>
    simp only [List.foldl_cons, List.map_cons, List.sum_cons]
    rw [ih _ (fun e he => h e (List.mem_cons_of_mem _ he)), h hd (List.mem_cons_self _ _)]
    ring

/-- C9: with a rate table mapping every currency appearing in the
products to 1, `convertProducts` gives each product a converted total
equal to the plain sum of its raw per-currency amounts. -/
theorem convertProducts_identity_rates (products : List ProductEarnings)
    (exchangeRates : List (String × Rat))
    (h : ∀ p ∈ products, ∀ e ∈ p.proceedsByCurrency, getAssoc exchangeRates e.1 = some 1) :
    (convertProducts products exchangeRates).map (·.totalProceeds) =
      products.map (fun p => (p.proceedsByCurrency.map (·.2)).sum) := by
  unfold convertProducts
  rw [List.map_map]
  apply List.map_congr_left
  intro p hp
  have h1 : ∀ e ∈ p.proceedsByCurrency, rateOr1 exchangeRates e.1 = 1 := by
    intro e he
    simp [rateOr1, h p hp e he]
  simpa [convertedTotal] using convertedTotal_foldl exchangeRates p.proceedsByCurrency 0 h1


unseal Rat.add Rat.mul Rat.inv Rat.sub in
/-- Witness for C9: converting a product holding USD 3 and EUR 2 with an
all-ones rate table yields total 5. -/
theorem convertProducts_identity_rates_witness :
    ((convertProducts [witnessProductUSDEUR] [("USD", 1), ("EUR", 1)]).map (·.totalProceeds) =
      [witnessProductUSDEUR].map (fun p => (p.proceedsByCurrency.map (·.2)).sum)) ∧
    (convertProducts [witnessProductUSDEUR] [("USD", 1), ("EUR", 1)]).map (·.totalProceeds) =
      [5] :=
  ⟨convertProducts_identity_rates [witnessProductUSDEUR] [("USD", 1), ("EUR", 1)] (by decide),
    by decide⟩

theorem fetch_fold_lookup (lookup : String → Option Rat) (targetCurrency : String)
    (cs : List String) (m : List (String × Rat)) (c : String) :
    getAssoc
      (cs.foldl (fun m c => setAssoc m c ((fetchRate lookup targetCurrency c).getD 1)) m) c =
      if c ∈ cs then some ((fetchRate lookup targetCurrency c).getD 1) else getAssoc m c := by
  induction cs generalizing m with
  | nil => simp
  | cons hd tl ih =>
    rw [List.foldl_cons, ih]
    by_cases hc : c ∈ tl
    · simp [hc, List.mem_cons]
    · by_cases he : hd = c
      · subst he
        simp [hc, getAssoc_setAssoc]
      · have hne : ¬ c ∈ hd :: tl := by
          intro hmem2
          rcases List.mem_cons.mp hmem2 with h | h
          · exact he h.symm
          · exact hc h
        simp [hc, hne, getAssoc_setAssoc, he]

/-- C7: `fetchExchangeRates` always returns a complete rate table: the
target currency is present with rate 1, every requested currency has an
entry, and every requested non-target currency's entry is exactly
`fetchRate`'s result when that per-currency lookup succeeded and the
fallback 1 when it failed — one currency's failure never disturbs the
others' entries. -/
theorem fetchExchangeRates_complete (lookup : String → Option Rat) (targetCurrency : String)
    (currencies : List String) :
    getAssoc (fetchExchangeRates lookup targetCurrency currencies) targetCurrency = some 1 ∧
    (∀ c ∈ currencies,
      (getAssoc (fetchExchangeRates lookup targetCurrency currencies) c).isSome = true) ∧
    (∀ c ∈ currencies, c ≠ targetCurrency →
      getAssoc (fetchExchangeRates lookup targetCurrency currencies) c =
        some ((fetchRate lookup targetCurrency c).getD 1)) := by
  have hmem : ∀ c, c ∈ currencies.filter (fun c => !(c == targetCurrency)) ↔
      (c ∈ currencies ∧ c ≠ targetCurrency) := by
    intro c
    simp [List.mem_filter]
  refine ⟨?_, ?_, ?_⟩
  · unfold fetchExchangeRates
    rw [fetch_fold_lookup]
    have hnot : ¬ targetCurrency ∈ currencies.filter (fun c => !(c == targetCurrency)) := by
      intro hin
      exact ((hmem targetCurrency).mp hin).2 rfl
    rw [if_neg hnot]
    simp [setAssoc, getAssoc]
  · intro c hc
    unfold fetchExchangeRates
    rw [fetch_fold_lookup]
    by_cases hct : c = targetCurrency
    · subst hct
      have hnot : ¬ c ∈ currencies.filter (fun x => !(x == c)) := by
        intro hin
        exact ((hmem c).mp hin).2 rfl
      rw [if_neg hnot]
      simp [setAssoc, getAssoc]
    · rw [if_pos ((hmem c).mpr ⟨hc, hct⟩)]
      simp
  · intro c hc hct
    unfold fetchExchangeRates
    rw [fetch_fold_lookup, if_pos ((hmem c).mpr ⟨hc, hct⟩)]


unseal Rat.add Rat.mul Rat.inv Rat.sub in
/-- Witness for C7: requesting GBP and EUR against target USD yields USD
at 1, GBP at its looked-up 3/2 and EUR at the fallback 1. -/
theorem fetchExchangeRates_complete_witness :
    getAssoc (fetchExchangeRates witnessLookupGBP "USD" ["GBP", "EUR"]) "USD" = some 1 ∧
    getAssoc (fetchExchangeRates witnessLookupGBP "USD" ["GBP", "EUR"]) "GBP" =
      some ((fetchRate witnessLookupGBP "USD" "GBP").getD 1) ∧
    getAssoc (fetchExchangeRates witnessLookupGBP "USD" ["GBP", "EUR"]) "EUR" =
      some ((fetchRate witnessLookupGBP "USD" "EUR").getD 1) ∧
    (fetchRate witnessLookupGBP "USD" "GBP").getD 1 = 3 / 2 ∧
    (fetchRate witnessLookupGBP "USD" "EUR").getD 1 = 1 :=
  ⟨(fetchExchangeRates_complete witnessLookupGBP "USD" ["GBP", "EUR"]).1,
    (fetchExchangeRates_complete witnessLookupGBP "USD" ["GBP", "EUR"]).2.2 "GBP"
      (by decide) (by decide),
    (fetchExchangeRates_complete witnessLookupGBP "USD" ["GBP", "EUR"]).2.2 "EUR"
      (by decide) (by decide),
    by decide, by decide⟩

/-- C10 (implicit): a row whose vendor SKU and Apple identifier are both
empty contributes nothing to `aggregateByProduct` — deleting it from the
row sequence leaves the output unchanged — regardless of its
extended-proceeds amount. -/
theorem aggregateByProduct_skips_keyless (rows₁ rows₂ : List FinancialReportRow)
    (r : FinancialReportRow) (h1 : r.vendorIdentifier = "") (h2 : r.appleIdentifier = "") :
    aggregateByProduct (rows₁ ++ r :: rows₂) = aggregateByProduct (rows₁ ++ rows₂) := by
  unfold aggregateByProduct aggregateState
  rw [List.foldl_append, List.foldl_append, List.foldl_cons]
  have hstep : aggregateStep (List.foldl aggregateStep [] rows₁) r =
      List.foldl aggregateStep [] rows₁ := by
    have hk : productKey r = "" := by
      simp [productKey, h1, h2]
    by_cases hz : r.extendedPartnerShare = 0
    · simp [aggregateStep, hz]
    · simp [aggregateStep, hz, hk]
  rw [hstep]



unseal Rat.add Rat.mul Rat.inv Rat.sub in
/-- Witness for C10: dropping the keyless nonzero row from a two-row
sequence leaves the aggregation unchanged. -/
theorem aggregateByProduct_skips_keyless_witness :
    aggregateByProduct ([witnessKeyedRow] ++ witnessKeylessRow :: []) =
      aggregateByProduct ([witnessKeyedRow] ++ []) ∧
    witnessKeylessRow.extendedPartnerShare = 5 :=
  ⟨aggregateByProduct_skips_keyless [witnessKeyedRow] [] witnessKeylessRow
    (by decide) (by decide), by decide⟩

theorem aggregateStep_zero (state : List (String × ProductEarnings)) (r : FinancialReportRow)
    (h : r.extendedPartnerShare = 0) : aggregateStep state r = state := by
  simp [aggregateStep, h]

theorem foldl_aggregateStep_filter (l : List FinancialReportRow)
    (state : List (String × ProductEarnings)) :
    List.foldl aggregateStep state (l.filter (fun r => !(r.extendedPartnerShare == 0))) =
      List.foldl aggregateStep state l := by
  induction l generalizing state with
  | nil => rfl
  | cons hd tl ih =>
    by_cases h : hd.extendedPartnerShare = 0
    · simp [List.filter_cons, h, aggregateStep_zero _ _ h, ih]
    · simp [List.filter_cons, h, ih]

theorem aggregate_fold_none (l : List FinancialReportRow)
    (state : List (String × ProductEarnings)) (k : String)
    (hst : getAssoc state k = none)
    (hall : ∀ r ∈ l, productKey r = k → r.extendedPartnerShare = 0) :
    getAssoc (List.foldl aggregateStep state l) k = none := by
  induction l generalizing state with
  | nil => exact hst
  | cons hd tl ih =>
    rw [List.foldl_cons]
    refine ih _ ?_ (fun r hr hk => hall r (List.mem_cons_of_mem _ hr) hk)
    by_cases hz : hd.extendedPartnerShare = 0
    · rw [aggregateStep_zero _ _ hz]
      exact hst
    · have hk : productKey hd ≠ k := fun he => hz (hall hd (List.mem_cons_self _ _) he)
      by_cases hke : productKey hd = ""
      · simp [aggregateStep, hz, hke, hst]
      · simp only [aggregateStep, if_neg hz, if_neg hke]
        rw [getAssoc_setAssoc, if_neg hk]
        exact hst

/-- C5: a row with extended proceeds exactly 0 contributes nothing to
`aggregateByProduct` — filtering all zero-proceeds rows out leaves the
output unchanged — and a key all of whose rows have zero extended
proceeds never appears in the product map. -/
theorem aggregateByProduct_zero_row_invisible :
    (∀ rows : List FinancialReportRow,
      aggregateByProduct rows =
        aggregateByProduct (rows.filter (fun r => !(r.extendedPartnerShare == 0)))) ∧
    (∀ (rows : List FinancialReportRow) (k : String),
      (∀ r ∈ rows, productKey r = k → r.extendedPartnerShare = 0) →
      ¬ k ∈ (aggregateState rows).map (·.1)) := by
  constructor
  · intro rows
    unfold aggregateByProduct aggregateState
    rw [foldl_aggregateStep_filter]
  · intro rows k h
    rw [← getAssoc_eq_none_iff]
    exact aggregate_fold_none rows [] k rfl h

unseal Rat.add Rat.mul Rat.inv Rat.sub in
/-- Witness for C5: a lone zero-proceeds row for key "Z1" is dropped and
"Z1" never appears. -/
theorem aggregateByProduct_zero_row_invisible_witness :
    (aggregateByProduct [witnessZeroRow] =
      aggregateByProduct ([witnessZeroRow].filter (fun r => !(r.extendedPartnerShare == 0)))) ∧
    ¬ "Z1" ∈ (aggregateState [witnessZeroRow]).map (·.1) ∧
    aggregateByProduct [witnessZeroRow] = [] :=
  ⟨aggregateByProduct_zero_row_invisible.1 [witnessZeroRow],
    aggregateByProduct_zero_row_invisible.2 [witnessZeroRow] "Z1" (by decide),
    by decide⟩

theorem stateCurrencySum_nil (c : String) : stateCurrencySum [] c = 0 := rfl

theorem stateCurrencySum_setAssoc_some (state : List (String × ProductEarnings)) (k : String)
    (p p' : ProductEarnings) (c : String) (h : getAssoc state k = some p) :
    stateCurrencySum (setAssoc state k p') c =
      stateCurrencySum state c - pcAt p c + pcAt p' c := by
  induction state with
  | nil => simp [getAssoc] at h
  | cons hd tl ih =>
    obtain ⟨k₀, p₀⟩ := hd
    by_cases h₀ : k₀ = k
    · subst h₀
      simp [getAssoc] at h
      subst h
      simp [setAssoc, stateCurrencySum]
      ring
    · simp only [getAssoc, if_neg h₀] at h
      simp only [setAssoc, if_neg h₀, stateCurrencySum, List.map_cons, List.sum_cons] at ih ⊢
      rw [ih h]
      ring

theorem stateCurrencySum_setAssoc_none (state : List (String × ProductEarnings)) (k : String)
    (p' : ProductEarnings) (c : String) (h : getAssoc state k = none) :
    stateCurrencySum (setAssoc state k p') c = stateCurrencySum state c + pcAt p' c := by
  rw [setAssoc_of_getAssoc_none _ _ _ h]
  simp [stateCurrencySum]

theorem pcAt_update (p : ProductEarnings) (cur c : String) (v : Rat) :
    pcAt { p with proceedsByCurrency := setAssoc p.proceedsByCurrency cur v } c =
      if cur = c then v else pcAt p c := by
  simp only [pcAt, getAssoc_setAssoc]
  by_cases h : cur = c <;> simp [h]

theorem stateCurrencySum_step (state : List (String × ProductEarnings))
    (r : FinancialReportRow) (c : String) :
    stateCurrencySum (aggregateStep state r) c =
      stateCurrencySum state c +
        (if r.extendedPartnerShare ≠ 0 ∧ productKey r ≠ "" ∧ effCurrency r = c
          then r.extendedPartnerShare else 0) := by
  by_cases hz : r.extendedPartnerShare = 0
  · simp [aggregateStep, hz]
  · by_cases hk : productKey r = ""
    · simp [aggregateStep, hz, hk]
    · simp only [aggregateStep, if_neg hz, if_neg hk]
      cases hg : getAssoc state (productKey r) with
      | some p =>
        simp only [hg, Option.getD_some]
        rw [stateCurrencySum_setAssoc_some state (productKey r) p _ c hg, pcAt_update]
        by_cases hc : effCurrency r = c
        · rw [if_pos hc]
          have : (getAssoc p.proceedsByCurrency (effCurrency r)).getD 0 = pcAt p c := by
            rw [hc]; rfl
          rw [this, if_pos ⟨hz, hk, hc⟩]
          ring
        · rw [if_neg hc, if_neg (by simp [hz, hk, hc])]
          ring
      | none =>
        simp only [hg, Option.getD_none]
        rw [stateCurrencySum_setAssoc_none state (productKey r) _ c hg]
        have hfresh : pcAt { freshProduct r with
            proceedsByCurrency :=
              setAssoc (freshProduct r).proceedsByCurrency (effCurrency r)
                ((getAssoc (freshProduct r).proceedsByCurrency (effCurrency r)).getD 0 +
                  r.extendedPartnerShare) } c =
            if effCurrency r = c then r.extendedPartnerShare else 0 := by
          rw [pcAt_update]
          simp [freshProduct, pcAt, getAssoc]
        rw [hfresh]
        by_cases hc : effCurrency r = c
        · rw [if_pos hc, if_pos ⟨hz, hk, hc⟩]
        · rw [if_neg hc, if_neg (by simp [hz, hk, hc])]

theorem stateCurrencySum_fold (l : List FinancialReportRow)
    (state : List (String × ProductEarnings)) (c : String) :
    stateCurrencySum (List.foldl aggregateStep state l) c =
      stateCurrencySum state c +
        (l.map (fun r =>
          if r.extendedPartnerShare ≠ 0 ∧ productKey r ≠ "" ∧ effCurrency r = c
            then r.extendedPartnerShare else 0)).sum := by
  induction l generalizing state with
  | nil => simp
  | cons hd tl ih =>
    rw [List.foldl_cons, ih, stateCurrencySum_step]
    simp only [List.map_cons, List.sum_cons]
    ring

theorem sum_if_eq_sum_filter (c : String) (l : List FinancialReportRow)
    (h1 : ∀ r ∈ l, r.extendedPartnerShare ≠ 0) (h2 : ∀ r ∈ l, productKey r ≠ "") :
    (l.map (fun r =>
      if r.extendedPartnerShare ≠ 0 ∧ productKey r ≠ "" ∧ effCurrency r = c
        then r.extendedPartnerShare else 0)).sum =
      ((l.filter (fun r => effCurrency r == c)).map (·.extendedPartnerShare)).sum := by
  induction l with
  | nil => simp
  | cons hd tl ih =>
    have hz := h1 hd (List.mem_cons_self _ _)
    have hk := h2 hd (List.mem_cons_self _ _)
    have ih' := ih (fun r hr => h1 r (List.mem_cons_of_mem _ hr))
      (fun r hr => h2 r (List.mem_cons_of_mem _ hr))
    by_cases hc : effCurrency hd = c
    · simp [List.filter_cons, hc, hz, hk, ih']
    · simp [List.filter_cons, hc, hz, hk, ih']

/-- C2 (amended): for a report all of whose parsed rows have nonzero
extended proceeds and a nonempty product key, aggregation conserves money
per effective currency: for each currency `c`, the sum over all returned
`ProductEarnings` of `c`'s entry equals the sum of extended proceeds of
the parsed rows whose effective currency (partner-share currency,
defaulting to USD when blank) is `c`. -/
theorem aggregate_conserves_currency (tsvContent : String) (c : String)
    (h1 : ∀ r ∈ parseFinanceReport tsvContent, r.extendedPartnerShare ≠ 0)
    (h2 : ∀ r ∈ parseFinanceReport tsvContent, productKey r ≠ "") :
    ((aggregateByProduct (parseFinanceReport tsvContent)).map (fun p => pcAt p c)).sum =
      (((parseFinanceReport tsvContent).filter (fun r => effCurrency r == c)).map
        (·.extendedPartnerShare)).sum := by
  have hmap : ((aggregateByProduct (parseFinanceReport tsvContent)).map
      (fun p => pcAt p c)).sum = stateCurrencySum (aggregateState (parseFinanceReport
        tsvContent)) c := by
    unfold aggregateByProduct stateCurrencySum
    rw [List.map_map]
    rfl
  rw [hmap]
  unfold aggregateState
  rw [stateCurrencySum_fold, stateCurrencySum_nil, zero_add]
  exact sum_if_eq_sum_filter c _ h1 h2

unseal Rat.add Rat.mul Rat.inv Rat.sub in
/-- Counterexample to C2 as frozen: in `reportKeylessContent` every
parsed row has nonzero extended proceeds, yet the products' USD total is
0 while the USD-carrying rows sum to 5 — the keyless row's proceeds
vanish from the aggregation. -/
theorem aggregate_conserves_currency_counterexample :
    (parseFinanceReport reportKeylessContent).all
      (fun r => !(r.extendedPartnerShare == 0)) = true ∧
    ((aggregateByProduct (parseFinanceReport reportKeylessContent)).map
      (fun p => pcAt p "USD")).sum = 0 ∧
    (((parseFinanceReport reportKeylessContent).filter
      (fun r => r.partnerShareCurrency == "USD")).map (·.extendedPartnerShare)).sum = 5 := by
  refine ⟨by decide, by decide, by decide⟩

unseal Rat.add Rat.mul Rat.inv Rat.sub in
/-- Witness for C2 (amended) on `reportKeyedContent` at currency USD: the
A1 row (USD 5) and the B2 row (blank currency, 3, filed under USD)
together give 8 on both sides. -/
theorem aggregate_conserves_currency_witness :
    ((parseFinanceReport reportKeyedContent).all
      (fun r => !(r.extendedPartnerShare == 0)) = true ∧
    (parseFinanceReport reportKeyedContent).all (fun r => !(productKey r == "")) = true) ∧
    ((aggregateByProduct (parseFinanceReport reportKeyedContent)).map
      (fun p => pcAt p "USD")).sum =
      (((parseFinanceReport reportKeyedContent).filter (fun r => effCurrency r == "USD")).map
        (·.extendedPartnerShare)).sum ∧
    ((aggregateByProduct (parseFinanceReport reportKeyedContent)).map
      (fun p => pcAt p "USD")).sum = 8 :=
  ⟨⟨by decide, by decide⟩,
    aggregate_conserves_currency reportKeyedContent "USD"
      (by intro r hr; revert hr; revert r; decide)
      (by intro r hr; revert hr; revert r; decide),
    by decide⟩

theorem getAssoc_groupStep_ne (mapping : List (String × ProductInfo))
    (state : List (String × AppWithIAPs)) (p : ProductEarnings) (k : String)
    (h : resolvedParentId mapping p ≠ k) :
    getAssoc (groupStep mapping state p) k = getAssoc state k := by
  have h' : (resolvedParent mapping p).2.1 ≠ k := h
  simp only [groupStep]
  rw [getAssoc_setAssoc, if_neg h']

theorem group_fold_preserve (mapping : List (String × ProductInfo))
    (l : List ProductEarnings) (state : List (String × AppWithIAPs)) (k : String)
    (h : ∀ q ∈ l, resolvedParentId mapping q ≠ k) :
    getAssoc (l.foldl (groupStep mapping) state) k = getAssoc state k := by
  induction l generalizing state with
  | nil => rfl
  | cons hd tl ih =>
    rw [List.foldl_cons, ih _ (fun q hq => h q (List.mem_cons_of_mem _ hq)),
      getAssoc_groupStep_ne mapping state hd k (h hd (List.mem_cons_self _ _))]

/-- C3 (amended): a product matched by neither its SKU nor its Apple
identifier becomes its own parent entry (id = its Apple identifier, or
its SKU when that is empty; title = its own title; total = its converted
total) provided no other product of the run resolves to the same parent
id; its proceeds land in the direct-sales slot with an empty add-on list
when it is not an add-on, and in the add-on list (with direct sales 0)
when it is. -/
theorem groupByParentApp_unmatched (products : List ProductEarnings)
    (mapping : List (String × ProductInfo)) (p : ProductEarnings)
    (l₁ l₂ : List ProductEarnings)
    (hsplit : products = l₁ ++ p :: l₂)
    (hun : lookupInfo mapping p = none)
    (hothers : ∀ q ∈ l₁ ++ l₂, resolvedParentId mapping q ≠ resolvedParentId mapping p) :
    ∃ e ∈ groupByParentApp products mapping,
      e.appleIdentifier = (if p.appleIdentifier = "" then p.sku else p.appleIdentifier) ∧
      e.title = p.title ∧
      e.totalProceeds = p.totalProceeds ∧
      (p.isIAP = true → e.appProceeds = 0 ∧ e.iaps = [p]) ∧
      (p.isIAP = false → e.appProceeds = p.totalProceeds ∧ e.iaps = []) := by
  subst hsplit
  have hrp : resolvedParent mapping p =
      (p.title, if p.appleIdentifier = "" then p.sku else p.appleIdentifier, p.isIAP) := by
    simp [resolvedParent, hun]
  have hpid : resolvedParentId mapping p =
      (if p.appleIdentifier = "" then p.sku else p.appleIdentifier) := by
    simp [resolvedParentId, hrp]
  have h₁ : ∀ q ∈ l₁, resolvedParentId mapping q ≠ resolvedParentId mapping p :=
    fun q hq => hothers q (List.mem_append_left _ hq)
  have h₂ : ∀ q ∈ l₂, resolvedParentId mapping q ≠ resolvedParentId mapping p :=
    fun q hq => hothers q (List.mem_append_right _ hq)
  have hst : getAssoc (l₁.foldl (groupStep mapping) []) (resolvedParentId mapping p) = none := by
    rw [group_fold_preserve mapping l₁ [] _ h₁]
    rfl
  rw [hpid] at hst
  have h₂' : ∀ q ∈ l₂, resolvedParentId mapping q ≠
      (if p.appleIdentifier = "" then p.sku else p.appleIdentifier) := hpid ▸ h₂
  by_cases hIAP : p.isIAP
  · have hfin : getAssoc ((l₁ ++ p :: l₂).foldl (groupStep mapping) [])
        (if p.appleIdentifier = "" then p.sku else p.appleIdentifier) =
        some { appleIdentifier := (if p.appleIdentifier = "" then p.sku else p.appleIdentifier),
               title := p.title, sku := "", totalProceeds := 0 + p.totalProceeds,
               appProceeds := 0, iaps := [] ++ [p] } := by
      rw [List.foldl_append, List.foldl_cons, group_fold_preserve mapping l₂ _ _ h₂']
      simp only [groupStep, hrp, hst, Option.getD_none, hIAP, if_true]
      rw [getAssoc_setAssoc, if_pos rfl]
    refine ⟨({ appleIdentifier := (if p.appleIdentifier = "" then p.sku else p.appleIdentifier), title := p.title, sku := "", totalProceeds := 0 + p.totalProceeds, appProceeds := 0, iaps := sortIAPsDesc ([] ++ [p]) } : AppWithIAPs), ?_, rfl, rfl, zero_add _, fun _ => ⟨rfl, rfl⟩, fun hc => by rw [hc] at hIAP; exact Bool.noConfusion hIAP⟩
    unfold groupByParentApp
    exact List.mem_map.mpr ⟨_, List.mem_map.mpr ⟨_, mem_of_getAssoc _ _ _ hfin, rfl⟩, rfl⟩
  · have hIAPf : p.isIAP = false := by
      cases hb : p.isIAP
      · rfl
      · exact absurd hb hIAP
    have hfin : getAssoc ((l₁ ++ p :: l₂).foldl (groupStep mapping) [])
        (if p.appleIdentifier = "" then p.sku else p.appleIdentifier) =
        some { appleIdentifier := (if p.appleIdentifier = "" then p.sku else p.appleIdentifier),
               title := p.title, sku := "", totalProceeds := 0 + p.totalProceeds,
               appProceeds := 0 + p.totalProceeds, iaps := ([] : List ProductEarnings) } := by
      rw [List.foldl_append, List.foldl_cons, group_fold_preserve mapping l₂ _ _ h₂']
      simp only [groupStep, hrp, hst, Option.getD_none, hIAPf]
      rw [getAssoc_setAssoc, if_pos rfl]
      simp
    refine ⟨({ appleIdentifier := (if p.appleIdentifier = "" then p.sku else p.appleIdentifier), title := p.title, sku := "", totalProceeds := 0 + p.totalProceeds, appProceeds := 0 + p.totalProceeds, iaps := sortIAPsDesc ([] : List ProductEarnings) } : AppWithIAPs), ?_, rfl, rfl, zero_add _, fun hc => by rw [hIAPf] at hc; exact Bool.noConfusion hc, fun _ => ⟨zero_add _, rfl⟩⟩
    unfold groupByParentApp
    exact List.mem_map.mpr ⟨_, List.mem_map.mpr ⟨_, mem_of_getAssoc _ _ _ hfin, rfl⟩, rfl⟩

unseal Rat.add Rat.mul Rat.inv Rat.sub in
/-- Counterexample to C3 as frozen: the unmatched add-on product
`witnessIAPProduct` (total 7) becomes a parent whose direct-sale proceeds
are 0 — not 7 — and whose add-on list holds the product itself rather
than being empty. -/
theorem groupByParentApp_unmatched_counterexample :
    (groupByParentApp [witnessIAPProduct] []).map (fun e => (e.appProceeds, e.iaps)) =
      [(0, [witnessIAPProduct])] ∧
    witnessIAPProduct.totalProceeds = 7 ∧
    ¬ (groupByParentApp [witnessIAPProduct] []).map (fun e => (e.appProceeds, e.iaps)) =
      [(witnessIAPProduct.totalProceeds, [])] :=
  ⟨by decide, by decide, by decide⟩

unseal Rat.add Rat.mul Rat.inv Rat.sub in
/-- Witness for C3 (amended): the unmatched non-add-on product
`witnessBaseProduct` becomes its own parent "400" with direct proceeds 9
and no add-ons. -/
theorem groupByParentApp_unmatched_witness :
    (∃ e ∈ groupByParentApp [witnessBaseProduct] [],
      e.appleIdentifier = (if witnessBaseProduct.appleIdentifier = "" then
        witnessBaseProduct.sku else witnessBaseProduct.appleIdentifier) ∧
      e.title = witnessBaseProduct.title ∧
      e.totalProceeds = witnessBaseProduct.totalProceeds ∧
      (witnessBaseProduct.isIAP = true →
        e.appProceeds = 0 ∧ e.iaps = [witnessBaseProduct]) ∧
      (witnessBaseProduct.isIAP = false →
        e.appProceeds = witnessBaseProduct.totalProceeds ∧ e.iaps = [])) ∧
    (groupByParentApp [witnessBaseProduct] []).map
      (fun e => (e.appleIdentifier, e.appProceeds, e.iaps.length)) = [("400", 9, 0)] :=
  ⟨groupByParentApp_unmatched [witnessBaseProduct] [] witnessBaseProduct [] [] rfl
      (by decide) (fun q hq => absurd hq (List.not_mem_nil q)),
    by decide⟩

/-- C6: whenever `parsePaymentInfo` settles on a fiscal period end (day
`d`) and returns a result, the pending flag is false exactly when "now"
is strictly past the estimated payment date (day `d` + 33); when not
pending the payment date mirrors the estimated date and the payment
amount mirrors the captured total-owed (which is whatever the scan found,
`none` when the sentinel never parsed); when pending both stay null. -/
theorem parsePaymentInfo_pending_iff (tsvContent : String) (fiscalPeriodEndDate : Option Int)
    (now : Int) (pinfo : PaymentInfo) (d : Int)
    (hres : parsePaymentInfo tsvContent fiscalPeriodEndDate now = some pinfo)
    (hday : paymentPeriodEndDay tsvContent fiscalPeriodEndDate = some d) :
    (pinfo.isPending = false ↔ now > dayToMs (d + 33)) ∧
    (pinfo.isPending = false → pinfo.paymentDate = pinfo.estimatedPaymentDate ∧
      pinfo.paymentAmount = pinfo.totalOwed) ∧
    (pinfo.isPending = true → pinfo.paymentDate = none ∧ pinfo.paymentAmount = none) ∧
    pinfo.totalOwed = (scanPayment tsvContent).totalOwed ∧
    pinfo.estimatedPaymentDate = some (formatDateForDisplay (d + 33)) := by
  unfold parsePaymentInfo at hres
  by_cases h0 : jsTrim tsvContent = ""
  · rw [if_pos h0] at hres
    exact Option.noConfusion hres
  · rw [if_neg h0] at hres
    by_cases h1 : (jsSplit (jsTrim tsvContent) '\n').length = 0
    · rw [if_pos h1] at hres
      exact Option.noConfusion hres
    · rw [if_neg h1] at hres
      rw [hday] at hres
      simp only [] at hres
      by_cases hnow : now > dayToMs (d + 33)
      · rw [if_pos hnow] at hres
        set A : PaymentInfo :=
          { paymentDate := some (formatDateForDisplay (d + 33)),
            paymentAmount := (scanPayment tsvContent).totalOwed, paymentCurrency := "USD",
            exchangeRate := none, isPending := false,
            estimatedPaymentDate := some (formatDateForDisplay (d + 33)),
            fiscalPeriodStart := (scanPayment tsvContent).fiscalPeriodStart,
            fiscalPeriodEnd := (scanPayment tsvContent).fiscalPeriodEnd,
            totalOwed := (scanPayment tsvContent).totalOwed } with hA
        by_cases hcond : A.totalOwed ≠ none ∨ A.fiscalPeriodEnd ≠ ""
        · rw [if_pos hcond] at hres
          have hpi : A = pinfo := Option.some.inj hres
          subst hpi
          refine ⟨by simp [hA, hnow], fun _ => ⟨rfl, rfl⟩, ?_, rfl, rfl⟩
          intro hc
          rw [hA] at hc
          exact Bool.noConfusion hc
        · rw [if_neg hcond] at hres
          exact Option.noConfusion hres
      · rw [if_neg hnow] at hres
        set B : PaymentInfo :=
          { paymentDate := none, paymentAmount := none, paymentCurrency := "USD",
            exchangeRate := none, isPending := true,
            estimatedPaymentDate := some (formatDateForDisplay (d + 33)),
            fiscalPeriodStart := (scanPayment tsvContent).fiscalPeriodStart,
            fiscalPeriodEnd := (scanPayment tsvContent).fiscalPeriodEnd,
            totalOwed := (scanPayment tsvContent).totalOwed } with hB
        by_cases hcond : B.totalOwed ≠ none ∨ B.fiscalPeriodEnd ≠ ""
        · rw [if_pos hcond] at hres
          have hpi : B = pinfo := Option.some.inj hres
          subst hpi
          refine ⟨by simp [hB, hnow], ?_, fun _ => ⟨rfl, rfl⟩, rfl, rfl⟩
          intro hc
          rw [hB] at hc
          exact Bool.noConfusion hc
        · rw [if_neg hcond] at hres
          exact Option.noConfusion hres

unseal Rat.add Rat.mul Rat.inv Rat.sub in
/-- Witness for C6 on the September 2025 report with "now" one
millisecond past midnight of Nov 2, 2025: the payment is no longer
pending, and the payment date/amount mirror the estimate and the
captured 208.66. -/
theorem parsePaymentInfo_pending_iff_witness :
    (parsePaymentInfo reportSeptContent none 1762041600001 =
      some { paymentDate := some "Nov 2, 2025", paymentAmount := some (10433 / 50), paymentCurrency := "USD", exchangeRate := none, isPending := false, estimatedPaymentDate := some "Nov 2, 2025", fiscalPeriodStart := "09/01/2025", fiscalPeriodEnd := "09/30/2025", totalOwed := some (10433 / 50) }) ∧
    paymentPeriodEndDay reportSeptContent none = some 20361 ∧
    ((PaymentInfo.isPending { paymentDate := some "Nov 2, 2025", paymentAmount := some (10433 / 50), paymentCurrency := "USD", exchangeRate := none, isPending := false, estimatedPaymentDate := some "Nov 2, 2025", fiscalPeriodStart := "09/01/2025", fiscalPeriodEnd := "09/30/2025", totalOwed := some (10433 / 50) } = false ↔ (1762041600001 : Int) > dayToMs (20361 + 33)) ∧
    (PaymentInfo.isPending { paymentDate := some "Nov 2, 2025", paymentAmount := some (10433 / 50), paymentCurrency := "USD", exchangeRate := none, isPending := false, estimatedPaymentDate := some "Nov 2, 2025", fiscalPeriodStart := "09/01/2025", fiscalPeriodEnd := "09/30/2025", totalOwed := some (10433 / 50) } = false →
      PaymentInfo.paymentDate { paymentDate := some "Nov 2, 2025", paymentAmount := some (10433 / 50), paymentCurrency := "USD", exchangeRate := none, isPending := false, estimatedPaymentDate := some "Nov 2, 2025", fiscalPeriodStart := "09/01/2025", fiscalPeriodEnd := "09/30/2025", totalOwed := some (10433 / 50) } =
        PaymentInfo.estimatedPaymentDate { paymentDate := some "Nov 2, 2025", paymentAmount := some (10433 / 50), paymentCurrency := "USD", exchangeRate := none, isPending := false, estimatedPaymentDate := some "Nov 2, 2025", fiscalPeriodStart := "09/01/2025", fiscalPeriodEnd := "09/30/2025", totalOwed := some (10433 / 50) } ∧
      PaymentInfo.paymentAmount { paymentDate := some "Nov 2, 2025", paymentAmount := some (10433 / 50), paymentCurrency := "USD", exchangeRate := none, isPending := false, estimatedPaymentDate := some "Nov 2, 2025", fiscalPeriodStart := "09/01/2025", fiscalPeriodEnd := "09/30/2025", totalOwed := some (10433 / 50) } =
        PaymentInfo.totalOwed { paymentDate := some "Nov 2, 2025", paymentAmount := some (10433 / 50), paymentCurrency := "USD", exchangeRate := none, isPending := false, estimatedPaymentDate := some "Nov 2, 2025", fiscalPeriodStart := "09/01/2025", fiscalPeriodEnd := "09/30/2025", totalOwed := some (10433 / 50) }) ∧
    (PaymentInfo.isPending { paymentDate := some "Nov 2, 2025", paymentAmount := some (10433 / 50), paymentCurrency := "USD", exchangeRate := none, isPending := false, estimatedPaymentDate := some "Nov 2, 2025", fiscalPeriodStart := "09/01/2025", fiscalPeriodEnd := "09/30/2025", totalOwed := some (10433 / 50) } = true →
      PaymentInfo.paymentDate { paymentDate := some "Nov 2, 2025", paymentAmount := some (10433 / 50), paymentCurrency := "USD", exchangeRate := none, isPending := false, estimatedPaymentDate := some "Nov 2, 2025", fiscalPeriodStart := "09/01/2025", fiscalPeriodEnd := "09/30/2025", totalOwed := some (10433 / 50) } = none ∧
      PaymentInfo.paymentAmount { paymentDate := some "Nov 2, 2025", paymentAmount := some (10433 / 50), paymentCurrency := "USD", exchangeRate := none, isPending := false, estimatedPaymentDate := some "Nov 2, 2025", fiscalPeriodStart := "09/01/2025", fiscalPeriodEnd := "09/30/2025", totalOwed := some (10433 / 50) } = none) ∧
    PaymentInfo.totalOwed { paymentDate := some "Nov 2, 2025", paymentAmount := some (10433 / 50), paymentCurrency := "USD", exchangeRate := none, isPending := false, estimatedPaymentDate := some "Nov 2, 2025", fiscalPeriodStart := "09/01/2025", fiscalPeriodEnd := "09/30/2025", totalOwed := some (10433 / 50) } = (scanPayment reportSeptContent).totalOwed ∧
    PaymentInfo.estimatedPaymentDate { paymentDate := some "Nov 2, 2025", paymentAmount := some (10433 / 50), paymentCurrency := "USD", exchangeRate := none, isPending := false, estimatedPaymentDate := some "Nov 2, 2025", fiscalPeriodStart := "09/01/2025", fiscalPeriodEnd := "09/30/2025", totalOwed := some (10433 / 50) } = some (formatDateForDisplay (20361 + 33))) :=
  ⟨by decide, by decide,
    parsePaymentInfo_pending_iff reportSeptContent none 1762041600001 _ 20361
      (by decide) (by decide)⟩

unseal Rat.add Rat.mul Rat.inv Rat.sub in
/-- Counterexample to C1 as frozen: on the September 2025 report the
estimated payment date computed from the fiscal period end 09/30/2025 is
"Nov 2, 2025" (Sep 30 + 33 days), not "Oct 4, 2025" (which would be
Sep 1 + 33 days). -/
theorem parsePaymentInfo_estimate_counterexample :
    (parsePaymentInfo reportSeptContent none 0).map
      (fun pinfo => pinfo.estimatedPaymentDate) = some (some "Nov 2, 2025") ∧
    ("Nov 2, 2025" : String) ≠ "Oct 4, 2025" :=
  ⟨by decide, by decide⟩

unseal Rat.add Rat.mul Rat.inv Rat.sub in
/-- C1 (amended): on a report containing the line
`Total_Amount⟶208.66` and a data row dated 09/01/2025–09/30/2025, the
Payment Estimator with no explicit period-end argument captures
total-owed 208.66 and estimates the payment date as "Nov 2, 2025", the
fiscal period end plus 33 calendar days. -/
theorem parsePaymentInfo_estimate_sep2025 :
    (parsePaymentInfo reportSeptContent none 0).map
      (fun pinfo => (pinfo.totalOwed, pinfo.estimatedPaymentDate)) =
      some (some (10433 / 50), some "Nov 2, 2025") ∧
    (10433 : Rat) / 50 = 208 + 66 / 100 ∧
    paymentPeriodEndDay reportSeptContent none = some (daysFromCivil 2025 9 30) ∧
    formatDateForDisplay (daysFromCivil 2025 9 30 + 33) = "Nov 2, 2025" :=
  ⟨by decide, by decide, by decide, by decide⟩
